import Mathlib

/-!
Shallow embedding of the shutter-control decision engine
(src/custom_components/shuttercontrol/controller.py) and proofs about it.

Modelling conventions:
* analog values (positions, brightness, temperatures, sun angles) are Int,
  matching the float comparisons of the source;
* timestamps are integer minutes since an epoch; a local datetime is a pair
  (day, minute-of-day), `datetime.combine(date, t)` is day * 1440 + t, and
  `timedelta(minutes = m)` is + m; the timezone offset is taken as zero so
  that `dt_util.as_local` and `dt_util.as_utc` are the identity;
* a configuration value that may be absent or non-numeric is an Option:
  `config.get(key)` followed by a float() coercion that falls back to a
  default is modelled by `Option.getD`;
* the host platform (entity states, service calls, dispatcher) is an
  explicit `Env` of sensor readings plus an explicit list/option of issued
  set-position commands returned by each operation;
* the per-evaluation resolution of each auto_*_enabled flag
  (`_auto_enabled`: optional external toggle entity, else the static config
  boolean) is modelled by the resolved boolean stored in `Config`, which is
  the source behaviour when no toggle entity is configured.
-/

namespace ShutterControl

/-- Default position values from const.py. -/
def DEFAULT_OPEN_POSITION : Int := 100

def DEFAULT_CLOSE_POSITION : Int := 0

def DEFAULT_VENTILATE_POSITION : Int := 50

def DEFAULT_SHADING_POSITION : Int := 30

def DEFAULT_TOLERANCE : Int := 3

def DEFAULT_MANUAL_OVERRIDE_MINUTES : Int := 90

/-- "00:00:00" parsed as minutes of the day. -/
def DEFAULT_MANUAL_OVERRIDE_RESET_TIME : Int := 0

/-- "06:00:00" in minutes of the day. -/
def DEFAULT_TIME_UP_WORKDAY : Int := 360

/-- "07:30:00" in minutes of the day. -/
def DEFAULT_TIME_UP_NON_WORKDAY : Int := 450

/-- "18:00:00" in minutes of the day. -/
def DEFAULT_TIME_DOWN_WORKDAY : Int := 1080

/-- "18:30:00" in minutes of the day. -/
def DEFAULT_TIME_DOWN_NON_WORKDAY : Int := 1110

/-- `IDLE_REASON = "idle"`. -/
def IDLE_REASON : String := "idle"

/-- The "resident_asleep" reason label. -/
def R_RESIDENT_ASLEEP : String := "resident_asleep"

/-- The "ventilation" reason label (also the action key of the ventilate
block flag). -/
def R_VENTILATION : String := "ventilation"

/-- The "cold_protection" reason label. -/
def R_COLD_PROTECTION : String := "cold_protection"

/-- The "shading" reason label (also the action key of the shading block
flag). -/
def R_SHADING : String := "shading"

/-- The "shading_end_close" reason label. -/
def R_SHADING_END_CLOSE : String := "shading_end_close"

/-- The "shading_end_open" reason label. -/
def R_SHADING_END_OPEN : String := "shading_end_open"

/-- The "sun_close" reason label. -/
def R_SUN_CLOSE : String := "sun_close"

/-- The "scheduled_open" reason label. -/
def R_SCHEDULED_OPEN : String := "scheduled_open"

/-- The "scheduled_close" reason label. -/
def R_SCHEDULED_CLOSE : String := "scheduled_close"

/-- The "manual_override" reason label. -/
def R_MANUAL_OVERRIDE : String := "manual_override"

/-- The "manual_shading" reason label. -/
def R_MANUAL_SHADING : String := "manual_shading"

/-- The "open" action key of `_manual_blocks_action`. -/
def A_OPEN : String := "open"

/-- The "close" action key of `_manual_blocks_action`. -/
def A_CLOSE : String := "close"

/-- The manual-override reset modes of const.py
(`MANUAL_OVERRIDE_RESET_NONE/TIME/TIMEOUT`).  Any unrecognised stored string
falls into the timeout branch of `_manual_reset_at`, so it is identified
with `rtimeout`. -/
inductive ResetMode where
  | rnone
  | rtime
  | rtimeout
deriving DecidableEq, Repr

/-- The merged configuration mapping of one controller (defaults ⊕ entry
data ⊕ entry options), restricted to the keys the engine reads.  `Option`
fields are those read via `config.get(key)` with either no default or a
later fallback coercion. -/
structure Config where
  open_position : Option Int
  close_position : Option Int
  ventilate_position : Option Int
  shading_position : Option Int
  position_tolerance : Option Int
  time_up_workday : Option Int
  time_up_non_workday : Option Int
  time_down_workday : Option Int
  time_down_non_workday : Option Int
  brightness_open_above : Int
  brightness_close_below : Int
  sun_elevation_open : Int
  sun_elevation_close : Int
  shading_azimuth_start : Int
  shading_azimuth_end : Int
  shading_elevation_min : Int
  shading_elevation_max : Int
  shading_brightness_start : Int
  shading_brightness_end : Int
  cold_protection_temperature : Option Int
  temperature_threshold : Int
  temperature_forecast_threshold : Option Int
  auto_up_enabled : Bool
  auto_down_enabled : Bool
  auto_brightness_enabled : Bool
  auto_sun_enabled : Bool
  auto_ventilate_enabled : Bool
  auto_shading_enabled : Bool
  auto_cold_protection_enabled : Bool
  manual_override_minutes : Option Int
  manual_override_block_open : Bool
  manual_override_block_close : Bool
  manual_override_block_ventilate : Bool
  manual_override_block_shading : Bool
  manual_override_reset_mode : ResetMode
  manual_override_reset_time : Option Int
deriving DecidableEq, Repr

/-- The external inputs read during one evaluation: the host state machine
(`hass.states`), resolved exactly as the controller's helper methods resolve
them (`_float_state`, `_is_window_open`, `_is_resident_sleeping`,
`_is_workday`, `_current_position`, `_cold_forecast_temperature`, the
`sun.sun` attributes) plus the current wall-clock instant. -/
structure Env where
  nowDay : Int
  nowMin : Int
  brightness : Option Int
  sun_elevation : Option Int
  sun_azimuth : Option Int
  current_position : Option Int
  resident_sleeping : Bool
  window_open : Bool
  workday : Bool
  indoor_temperature : Option Int
  outdoor_temperature : Option Int
  forecast_temperature : Option Int
  sun_next_rising : Option Int
  sun_next_setting : Option Int
deriving DecidableEq, Repr

/-- `dt_util.utcnow()` as an absolute minute count. -/
def Env.now (e : Env) : Int := e.nowDay * 1440 + e.nowMin

/-- The mutable runtime state of one `ShutterController`. -/
structure EngineState where
  manual_until : Option Int
  manual_active : Bool
  manual_scope_all : Bool
  target : Option Int
  reason : Option String
  next_open : Option Int
  next_close : Option Int
deriving DecidableEq, Repr

/-- One `cover.set_cover_position` service call. -/
structure Command where
  position : Int
  reason : String
deriving DecidableEq, Repr

/-- `_position_value(key, default)`: the stored value coerced to float,
falling back to the default when absent or non-numeric. -/
def position_value (raw : Option Int) (default : Int) : Int := raw.getD default

/-- `_normalize_position`. -/
def normalize_position (value : Option Int) (default : Int) : Int :=
  max 0 (min 100 (value.getD default))

/-- `_sun_allows_open`. -/
def sun_allows_open (cfg : Config) (sun_elevation : Option Int) : Bool :=
  if !cfg.auto_sun_enabled then true
  else match sun_elevation with
    | none => false
    | some e => decide (cfg.sun_elevation_open ≤ e)

/-- `_sun_allows_close`. -/
def sun_allows_close (cfg : Config) (sun_elevation : Option Int) : Bool :=
  if !cfg.auto_sun_enabled then true
  else match sun_elevation with
    | none => false
    | some e => decide (e ≤ cfg.sun_elevation_close)

/-- `_brightness_allows_open`. -/
def brightness_allows_open (cfg : Config) (brightness : Option Int) : Bool :=
  if !cfg.auto_brightness_enabled then true
  else match brightness with
    | none => true
    | some b => decide (cfg.brightness_open_above ≤ b)

/-- `_brightness_allows_close`. -/
def brightness_allows_close (cfg : Config) (brightness : Option Int) : Bool :=
  if !cfg.auto_brightness_enabled then true
  else match brightness with
    | none => true
    | some b => decide (b ≤ cfg.brightness_close_below)

/-- `_cold_protection_needed`. -/
def cold_protection_needed (cfg : Config) (env : Env) : Bool :=
  if (match env.sun_elevation with
      | some e => decide (0 < e)
      | none => false) then false
  else match cfg.cold_protection_temperature with
    | none => false
    | some threshold =>
      (match env.outdoor_temperature with
        | some outdoor => decide (outdoor ≤ threshold)
        | none => false)
      || (match env.forecast_temperature with
        | some forecast => decide (forecast ≤ threshold)
        | none => false)

/-- `_temperature_allows_shading`. -/
def temperature_allows_shading (cfg : Config) (env : Env) : Bool :=
  let forecast_hot :=
    match cfg.temperature_forecast_threshold with
    | some v => decide (0 < v)
    | none => false
  (match env.indoor_temperature with
    | some indoor => decide (cfg.temperature_threshold ≤ indoor)
    | none => false)
  || (match env.outdoor_temperature with
    | some outdoor => decide (cfg.temperature_threshold ≤ outdoor)
    | none => false)
  || forecast_hot

/-- `_shading_conditions`; `reason` is the controller's stored
`self._reason` at the moment of the call. -/
def shading_conditions (cfg : Config) (reason : Option String) (env : Env) : Bool :=
  match env.sun_azimuth, env.sun_elevation, env.brightness with
  | some az, some el, some brightness =>
    if !(decide (cfg.shading_azimuth_start ≤ az ∧ az ≤ cfg.shading_azimuth_end
          ∧ cfg.shading_elevation_min ≤ el ∧ el ≤ cfg.shading_elevation_max)) then
      false
    else if decide (brightness < cfg.shading_brightness_start) then
      false
    else if decide (reason = some R_SHADING ∧ brightness ≤ cfg.shading_brightness_end) then
      false
    else
      temperature_allows_shading cfg env || decide (cfg.shading_brightness_start ≤ brightness)
  | _, _, _ => false

/-- `_time_setting`: the configured time-of-day for the workday/direction
pair, else the parsed default constant. -/
def time_setting (cfg : Config) (workday is_up : Bool) : Option Int :=
  if workday then
    if is_up then some (cfg.time_up_workday.getD DEFAULT_TIME_UP_WORKDAY)
    else some (cfg.time_down_workday.getD DEFAULT_TIME_DOWN_WORKDAY)
  else
    if is_up then some (cfg.time_up_non_workday.getD DEFAULT_TIME_UP_NON_WORKDAY)
    else some (cfg.time_down_non_workday.getD DEFAULT_TIME_DOWN_NON_WORKDAY)

/-- `_next_time_for_point`: combine today's date with the scheduled
time-of-day and roll one day forward when that instant is not after now. -/
def next_time_for_point (scheduled : Option Int) (nowDay nowMin : Int) : Option Int :=
  match scheduled with
  | none => none
  | some t =>
    if nowDay * 1440 + t ≤ nowDay * 1440 + nowMin then some (nowDay * 1440 + t + 1440)
    else some (nowDay * 1440 + t)

/-- The `_window_for` helper of `_within_open_close_window` combined with
its `start <= local_now < end` test, for the date `d`: a window whose end is
not after its start extends one day. -/
def window_check (open_time close_time now d : Int) : Bool :=
  decide (d * 1440 + open_time ≤ now
    ∧ now < (if d * 1440 + close_time ≤ d * 1440 + open_time
        then d * 1440 + close_time + 1440 else d * 1440 + close_time))

/-- `_within_open_close_window`: the [open, close) window for today and for
yesterday. -/
def within_open_close_window (cfg : Config) (env : Env) : Bool :=
  match time_setting cfg env.workday true, time_setting cfg env.workday false with
  | some open_time, some close_time =>
    window_check open_time close_time env.now env.nowDay
      || window_check open_time close_time env.now (env.nowDay - 1)
  | _, _ => false

/-- `_event_due`. -/
def event_due (target : Option Int) (now : Int) : Bool :=
  match target with
  | none => false
  | some t => decide (t ≤ now)

/-- `min(candidates)` over a Python list, none when empty. -/
def list_min (l : List Int) : Option Int :=
  l.foldl (fun acc x =>
    match acc with
    | none => some x
    | some a => some (min a x)) none

/-- `_refresh_next_events`: recompute `next_open`/`next_close` from the sun
attribute candidates (when the sun rule is enabled) or the schedule
candidates, with the trailing schedule fallback of the source. -/
def refresh_next_events (cfg : Config) (env : Env) (s : EngineState) : EngineState :=
  let next_up := next_time_for_point (time_setting cfg env.workday true) env.nowDay env.nowMin
  let next_down := next_time_for_point (time_setting cfg env.workday false) env.nowDay env.nowMin
  let candidates_open : List Int :=
    if cfg.auto_sun_enabled then env.sun_next_rising.toList
    else if cfg.auto_up_enabled then next_up.toList else []
  let candidates_close : List Int :=
    if cfg.auto_sun_enabled then env.sun_next_setting.toList
    else if cfg.auto_down_enabled then next_down.toList else []
  let next_open0 := list_min candidates_open
  let next_close0 := list_min candidates_close
  let next_open1 :=
    if !cfg.auto_sun_enabled && next_open0.isNone then next_up else next_open0
  let next_close1 :=
    if !cfg.auto_sun_enabled && next_close0.isNone then next_down else next_close0
  { s with next_open := next_open1, next_close := next_close1 }

/-- `_manual_blocks_action`. -/
def manual_blocks_action (cfg : Config) (s : EngineState) (action : String) : Bool :=
  if !s.manual_active then false
  else if s.manual_scope_all then true
  else if action = A_OPEN then cfg.manual_override_block_open
  else if action = A_CLOSE then cfg.manual_override_block_close
  else if action = R_VENTILATION then cfg.manual_override_block_ventilate
  else if action = R_SHADING then cfg.manual_override_block_shading
  else false

/-- `_manual_detection_enabled`. -/
def manual_detection_enabled (cfg : Config) (s : EngineState) : Bool :=
  if s.manual_active then false
  else cfg.manual_override_block_open || cfg.manual_override_block_close
    || cfg.manual_override_block_ventilate || cfg.manual_override_block_shading

/-- `_manual_reset_at`. -/
def manual_reset_at (cfg : Config) (env : Env) (minutes : Option Int) : Option Int :=
  match minutes with
  | some m => some (env.now + m)
  | none =>
    match cfg.manual_override_reset_mode with
    | ResetMode.rnone => none
    | ResetMode.rtime =>
      next_time_for_point
        (some (cfg.manual_override_reset_time.getD DEFAULT_MANUAL_OVERRIDE_RESET_TIME))
        env.nowDay env.nowMin
    | ResetMode.rtimeout =>
      some (env.now + cfg.manual_override_minutes.getD DEFAULT_MANUAL_OVERRIDE_MINUTES)

/-- `_expire_manual_override`. -/
def expire_manual_override (now : Int) (s : EngineState) : EngineState :=
  match s.manual_until with
  | some t =>
    if t ≤ now then
      { s with
        manual_until := none, manual_active := false, manual_scope_all := false,
        reason :=
          (if s.reason = some R_MANUAL_OVERRIDE ∨ s.reason = some R_MANUAL_SHADING
            then none else s.reason) }
    else s
  | none => s

/-- `_activate_manual_override` (the dispatcher publish is a broadcast with
no effect on engine state). -/
def activate_manual_override (cfg : Config) (env : Env) (minutes : Option Int)
    (scope_all : Bool) (reason : Option String) (s : EngineState) : EngineState :=
  let scope := s.manual_scope_all || scope_all
  let s1 :=
    { s with
      manual_active := true, manual_scope_all := scope,
      manual_until := manual_reset_at cfg env minutes,
      reason :=
        (match reason with
          | some r => some r
          | none => if scope then some R_MANUAL_OVERRIDE else s.reason) }
  refresh_next_events cfg env s1

/-- `set_manual_override` (a zero `minutes` argument is falsy in the source,
so it falls back to the configured duration). -/
def set_manual_override (cfg : Config) (env : Env) (minutes : Int) (s : EngineState) :
    EngineState :=
  let duration :=
    if minutes = 0 then cfg.manual_override_minutes.getD DEFAULT_MANUAL_OVERRIDE_MINUTES
    else minutes
  activate_manual_override cfg env (some duration) true (some R_MANUAL_OVERRIDE) s

/-- `clear_manual_override`. -/
def clear_manual_override (cfg : Config) (env : Env) (s : EngineState) : EngineState :=
  let s1 :=
    { s with
      manual_until := none, manual_active := false, manual_scope_all := false,
      reason :=
        (if s.reason = some R_MANUAL_OVERRIDE ∨ s.reason = some R_MANUAL_SHADING
          then none else s.reason) }
  refresh_next_events cfg env s1

/-- `update_config`: replace the configuration, clear the override fields,
recompute the schedule.  The `_evaluate("config")` the source schedules as a
separate task on the event loop is not part of this synchronous effect. -/
def update_config (new_config : Config) (env : Env) (s : EngineState) :
    Config × EngineState :=
  let s1 := { s with manual_until := none, manual_active := false, manual_scope_all := false }
  (new_config, refresh_next_events new_config env s1)

/-- The skip guard of `_set_position`: true when a measured position exists,
it is within tolerance of the request, and the stored reason equals the
requested reason. -/
def position_request_skipped (cfg : Config) (env : Env) (s : EngineState)
    (pos : Int) (reason : String) : Bool :=
  match env.current_position with
  | some current =>
    decide (|current - pos| ≤ position_value cfg.position_tolerance DEFAULT_TOLERANCE
      ∧ s.reason = some reason)
  | none => false

/-- `_set_position`: skip when the measured position is already within
tolerance of the request and the stored reason equals the requested reason;
otherwise issue the service call, store target and reason, and refresh the
schedule. -/
def set_position (cfg : Config) (env : Env) (s : EngineState)
    (position : Option Int) (reason : String) : EngineState × Option Command :=
  match position with
  | none => (s, none)
  | some pos =>
    if position_request_skipped cfg env s pos reason then
      (s, none)
    else
      (refresh_next_events cfg env { s with target := some pos, reason := some reason },
        some { position := pos, reason := reason })

/-- The tail of `_evaluate` from the `time_window_open` computation on:
the auto-up rule (scheduled open / open window / sun), the auto-down rule,
and the final refresh-and-publish.  `s` is the engine state after
`_expire_manual_override`; the one-minute reschedule of the source is the
`now + 1` assignment (the source publishes there without refreshing). -/
def evaluate_after_sun (cfg : Config) (env : Env) (s : EngineState)
    (up_due down_due : Bool) : EngineState × Option Command :=
  if cfg.auto_up_enabled
      && (up_due || within_open_close_window cfg env
        || (cfg.auto_sun_enabled && sun_allows_open cfg env.sun_elevation)) then
    if brightness_allows_open cfg env.brightness
        && ((cfg.auto_sun_enabled && sun_allows_open cfg env.sun_elevation)
          || !cfg.auto_sun_enabled)
        && !manual_blocks_action cfg s A_OPEN then
      set_position cfg env s
        (some (position_value cfg.open_position DEFAULT_OPEN_POSITION)) R_SCHEDULED_OPEN
    else
      ({ s with next_open := some (env.now + 1) }, none)
  else if cfg.auto_down_enabled && down_due then
    if sun_allows_close cfg env.sun_elevation && brightness_allows_close cfg env.brightness
        && !manual_blocks_action cfg s A_CLOSE then
      set_position cfg env s
        (some (position_value cfg.close_position DEFAULT_CLOSE_POSITION)) R_SCHEDULED_CLOSE
    else
      ({ s with next_close := some (env.now + 1) }, none)
  else
    (refresh_next_events cfg env s, none)

/-- The auto-sun close rule of `_evaluate`; on any failed condition the
source falls through to the time-window rules. -/
def evaluate_sun_close (cfg : Config) (env : Env) (s : EngineState)
    (up_due down_due : Bool) : EngineState × Option Command :=
  if cfg.auto_sun_enabled && sun_allows_close cfg env.sun_elevation
      && brightness_allows_close cfg env.brightness
      && !manual_blocks_action cfg s A_CLOSE then
    set_position cfg env s
      (some (position_value cfg.close_position DEFAULT_CLOSE_POSITION)) R_SUN_CLOSE
  else
    evaluate_after_sun cfg env s up_due down_due

/-- The shading block of `_evaluate`: the shading-end fallbacks when shading
was active and is no longer allowed, the shading command when allowed, and
fall-through to the sun-close rule otherwise. -/
def evaluate_shading (cfg : Config) (env : Env) (s : EngineState)
    (up_due down_due : Bool) : EngineState × Option Command :=
  if cfg.auto_shading_enabled && !manual_blocks_action cfg s R_SHADING then
    if decide (s.reason = some R_SHADING ∨ s.reason = some R_MANUAL_SHADING)
        && !shading_conditions cfg s.reason env then
      if cfg.auto_down_enabled && sun_allows_close cfg env.sun_elevation
          && brightness_allows_close cfg env.brightness
          && !manual_blocks_action cfg s A_CLOSE then
        set_position cfg env s
          (some (position_value cfg.close_position DEFAULT_CLOSE_POSITION)) R_SHADING_END_CLOSE
      else if cfg.auto_up_enabled && sun_allows_open cfg env.sun_elevation
          && brightness_allows_open cfg env.brightness
          && !manual_blocks_action cfg s A_OPEN then
        set_position cfg env s
          (some (position_value cfg.open_position DEFAULT_OPEN_POSITION)) R_SHADING_END_OPEN
      else
        evaluate_sun_close cfg env s up_due down_due
    else if shading_conditions cfg s.reason env then
      set_position cfg env s
        (some (position_value cfg.shading_position DEFAULT_SHADING_POSITION)) R_SHADING
    else
      evaluate_sun_close cfg env s up_due down_due
  else
    evaluate_sun_close cfg env s up_due down_due

/-- The rule cascade of `_evaluate`, run on the state left by
`_expire_manual_override`: skip everything under an active scope-all
override, else run the priority-ordered rules, each exiting the evaluation
when it fires.  `up_due`/`down_due` are computed from the post-expiry state
exactly as in the source. -/
def evaluate_cascade (cfg : Config) (env : Env) (s : EngineState) :
    EngineState × Option Command :=
  if s.manual_active && s.manual_scope_all then
    (refresh_next_events cfg env s, none)
  else if env.resident_sleeping then
    set_position cfg env s
      (some (position_value cfg.close_position DEFAULT_CLOSE_POSITION)) R_RESIDENT_ASLEEP
  else if cfg.auto_ventilate_enabled && env.window_open then
    if !manual_blocks_action cfg s R_VENTILATION then
      set_position cfg env s
        (some (position_value cfg.ventilate_position DEFAULT_VENTILATE_POSITION)) R_VENTILATION
    else
      (s, none)
  else if cfg.auto_cold_protection_enabled && cold_protection_needed cfg env then
    set_position cfg env s
      (some (position_value cfg.close_position DEFAULT_CLOSE_POSITION)) R_COLD_PROTECTION
  else
    evaluate_shading cfg env s
      (event_due s.next_open env.now) (event_due s.next_close env.now)

/-- `_evaluate`: expire the override, then run the rule cascade.  The result
is the new engine state and the set-position service call the evaluation
issued, if any (each source path calls `_set_position` at most once before
returning). -/
def evaluate (cfg : Config) (env : Env) (s0 : EngineState) : EngineState × Option Command :=
  evaluate_cascade cfg env (expire_manual_override env.now s0)

/-- `_handle_state_event`: expire the override, and on an event for the
cover itself run manual-movement detection.  The `_evaluate("state")` the
source then schedules runs as a separate task and is modelled as a separate
`evaluate` call. -/
def handle_state_event (cfg : Config) (env : Env) (is_cover_event : Bool)
    (s : EngineState) : EngineState :=
  if is_cover_event then
    match env.current_position, (expire_manual_override env.now s).target with
    | some current, some target =>
      if decide (position_value cfg.position_tolerance DEFAULT_TOLERANCE
            < |current - target|)
          && manual_detection_enabled cfg (expire_manual_override env.now s) then
        activate_manual_override cfg env none false (some R_MANUAL_OVERRIDE)
          (expire_manual_override env.now s)
      else expire_manual_override env.now s
    | _, _ => expire_manual_override env.now s
  else expire_manual_override env.now s

/-- `activate_shading`: set `_manual_until` (a falsy `minutes` falls back to
the configured duration) and request the raw configured shading position
with reason "manual_shading" through `_set_position` (the source schedules
that call as a task; its effect is returned here). -/
def activate_shading (cfg : Config) (env : Env) (minutes : Option Int)
    (s : EngineState) : EngineState × Option Command :=
  let duration :=
    match minutes with
    | none => cfg.manual_override_minutes.getD DEFAULT_MANUAL_OVERRIDE_MINUTES
    | some m =>
      if m = 0 then cfg.manual_override_minutes.getD DEFAULT_MANUAL_OVERRIDE_MINUTES else m
  let s1 := { s with manual_until := some (env.now + duration) }
  set_position cfg env s1 cfg.shading_position R_MANUAL_SHADING

/-- `recalibrate`: save the override/reason state, force a scope-all
override, command the normalized full-open target, wait, command the
original position back (when one was measured), wait again, and in the
`finally` block restore the saved state and refresh.

`_command_position` and `_wait_for_position` only issue service calls and
poll the measured position; neither assigns any engine-state field, and the
wait loop returns normally on success or on its 60-second timeout.
`outcome` abstracts the control flow of the `try` body: `none` means no
awaited call raised, `some i` means the i-th awaited call (0 = first
command, 1 = first wait, 2 = second command, 3 = second wait) raised and
aborted the rest of the body.  The returned list holds the positions
commanded before the abort, and the flag says whether an exception
propagates after the `finally` block ran. -/
def recalibrate (cfg : Config) (env : Env) (full_open : Option Int)
    (outcome : Option (Fin 4)) (s : EngineState) : EngineState × List Int × Bool :=
  let target_open := normalize_position full_open DEFAULT_OPEN_POSITION
  let current_position := env.current_position
  let saved_until := s.manual_until
  let saved_active := s.manual_active
  let saved_scope := s.manual_scope_all
  let saved_reason := s.reason
  let s1 := activate_manual_override cfg env
    (some (cfg.manual_override_minutes.getD DEFAULT_MANUAL_OVERRIDE_MINUTES))
    true (some R_MANUAL_OVERRIDE) s
  let steps_done : Nat := match outcome with | none => 4 | some i => i.val
  let commands :=
    (if 0 < steps_done then [target_open] else [])
      ++ (match current_position with
        | some c => if 2 < steps_done then [c] else []
        | none => [])
  let s2 :=
    { s1 with
      manual_until := saved_until, manual_active := saved_active,
      manual_scope_all := saved_scope, reason := saved_reason }
  (refresh_next_events cfg env s2, commands, outcome.isSome)

/-- A dynamically-typed Python value, for the state-snapshot tuple slots. -/
inductive PyVal where
  | pynone
  | num (q : Int)
  | str (s : String)
  | bool (b : Bool)
  | time (t : Int)
deriving DecidableEq, Repr

/-- `_position_matches`. -/
def position_matches (cfg : Config) (target current : Option Int) : Bool :=
  match target, current with
  | some t, some c =>
    decide (|c - t| ≤ position_value cfg.position_tolerance DEFAULT_TOLERANCE)
  | _, _ => false

/-- `_shading_is_active`. -/
def shading_is_active (cfg : Config) (s : EngineState) (current_position : Option Int)
    (shading_enabled : Bool) : Bool :=
  if !shading_enabled then false
  else if !(decide (s.reason = some R_SHADING ∨ s.reason = some R_MANUAL_SHADING)) then false
  else position_matches cfg
    (some (position_value cfg.shading_position DEFAULT_SHADING_POSITION)) current_position

/-- `_ventilation_is_active`. -/
def ventilation_is_active (cfg : Config) (s : EngineState)
    (current_position : Option Int) : Bool :=
  if !(decide (s.reason = some R_VENTILATION)) then false
  else position_matches cfg
    (some (position_value cfg.ventilate_position DEFAULT_VENTILATE_POSITION)) current_position

/-- An Option Int as a snapshot slot. -/
def PyVal.ofOptQ : Option Int → PyVal
  | none => PyVal.pynone
  | some q => PyVal.num q

/-- An Option Int timestamp as a snapshot slot. -/
def PyVal.ofOptTime : Option Int → PyVal
  | none => PyVal.pynone
  | some t => PyVal.time t

/-- `ShutterController.state_snapshot`: refresh the schedule, then return
the ten-slot tuple (target, reason defaulted to "idle", manual-until,
manual-active, next-open, next-close, current position, shading-enabled,
shading-active, ventilation-active).  The refreshed state is returned too,
since the source mutates `_next_open`/`_next_close` in place. -/
def state_snapshot (cfg : Config) (env : Env) (s : EngineState) :
    EngineState × List PyVal :=
  let s1 := refresh_next_events cfg env s
  let current_position := env.current_position
  let shading_enabled := cfg.auto_shading_enabled
  (s1,
    [PyVal.ofOptQ s1.target,
      PyVal.str (s1.reason.getD IDLE_REASON),
      PyVal.ofOptTime s1.manual_until,
      PyVal.bool s1.manual_active,
      PyVal.ofOptTime s1.next_open,
      PyVal.ofOptTime s1.next_close,
      PyVal.ofOptQ current_position,
      PyVal.bool shading_enabled,
      PyVal.bool (shading_is_active cfg s1 current_position shading_enabled),
      PyVal.bool (ventilation_is_active cfg s1 current_position)])

/-- `ControllerManager`: the per-entry merged configuration and the mapping
from cover identifier to controller runtime state. -/
structure ControllerManager where
  config : Config
  controllers : List (String × EngineState)
deriving DecidableEq, Repr

/-- `self.controllers.get(cover)`. -/
def ControllerManager.find (m : ControllerManager) (cover : String) : Option EngineState :=
  m.controllers.lookup cover

/-- Replace the state stored for a cover. -/
def ControllerManager.store (m : ControllerManager) (cover : String)
    (s : EngineState) : ControllerManager :=
  { m with controllers := m.controllers.map (fun p => if p.1 = cover then (p.1, s) else p) }

/-- `ControllerManager.set_manual_override`. -/
def manager_set_manual_override (m : ControllerManager) (env : Env)
    (cover : String) (minutes : Int) : ControllerManager × Bool :=
  match m.find cover with
  | none => (m, false)
  | some s => (m.store cover (set_manual_override m.config env minutes s), true)

/-- `ControllerManager.activate_shading` (the issued command is dropped
here; the manager only reports whether a controller was found). -/
def manager_activate_shading (m : ControllerManager) (env : Env)
    (cover : String) (minutes : Option Int) : ControllerManager × Bool :=
  match m.find cover with
  | none => (m, false)
  | some s => (m.store cover (activate_shading m.config env minutes s).1, true)

/-- `ControllerManager.clear_manual_override`. -/
def manager_clear_manual_override (m : ControllerManager) (env : Env)
    (cover : String) : ControllerManager × Bool :=
  match m.find cover with
  | none => (m, false)
  | some s => (m.store cover (clear_manual_override m.config env s), true)

/-- `ControllerManager.recalibrate_cover`. -/
def manager_recalibrate_cover (m : ControllerManager) (env : Env)
    (cover : String) (full_open : Option Int) (outcome : Option (Fin 4)) :
    ControllerManager × Bool :=
  match m.find cover with
  | none => (m, false)
  | some s => (m.store cover (recalibrate m.config env full_open outcome s).1, true)

/-- The literal tuple `ControllerManager.state_snapshot` returns when no
controller is registered for the cover. -/
def default_snapshot : List PyVal :=
  [PyVal.pynone, PyVal.str IDLE_REASON, PyVal.pynone, PyVal.pynone, PyVal.bool false,
    PyVal.pynone, PyVal.pynone, PyVal.bool false, PyVal.bool false, PyVal.bool false]

/-- `ControllerManager.state_snapshot`: the controller's snapshot when one
is registered, else the literal default tuple (the source returns that
tuple, not `None`). -/
def manager_state_snapshot (m : ControllerManager) (env : Env)
    (cover : String) : Option (List PyVal) :=
  match m.find cover with
  | none => some default_snapshot
  | some s => some (state_snapshot m.config env s).2

/-! ### Concrete sample values for witnesses and counterexamples -/

/-- A concrete merged configuration: the const.py defaults for every value
key (stored raw values absent, so the coercion fallbacks apply), automation
flags as in `DEFAULT_AUTOMATION_FLAGS` except that only the schedule rules
are on, and the default manual-override block flags. -/
def cfg_base : Config where
  open_position := none
  close_position := none
  ventilate_position := none
  shading_position := none
  position_tolerance := none
  time_up_workday := none
  time_up_non_workday := none
  time_down_workday := none
  time_down_non_workday := none
  brightness_open_above := 500
  brightness_close_below := 100
  sun_elevation_open := -2
  sun_elevation_close := -4
  shading_azimuth_start := 90
  shading_azimuth_end := 270
  shading_elevation_min := 10
  shading_elevation_max := 70
  shading_brightness_start := 20000
  shading_brightness_end := 15000
  cold_protection_temperature := none
  temperature_threshold := 26
  temperature_forecast_threshold := none
  auto_up_enabled := true
  auto_down_enabled := true
  auto_brightness_enabled := false
  auto_sun_enabled := false
  auto_ventilate_enabled := false
  auto_shading_enabled := false
  auto_cold_protection_enabled := false
  manual_override_minutes := none
  manual_override_block_open := true
  manual_override_block_close := true
  manual_override_block_ventilate := true
  manual_override_block_shading := true
  manual_override_reset_mode := ResetMode.rtimeout
  manual_override_reset_time := none

/-- A concrete environment: 10:00 on a workday, cover measured fully
closed, every optional sensor absent. -/
def env_base : Env where
  nowDay := 0
  nowMin := 600
  brightness := none
  sun_elevation := none
  sun_azimuth := none
  current_position := some 0
  resident_sleeping := false
  window_open := false
  workday := true
  indoor_temperature := none
  outdoor_temperature := none
  forecast_temperature := none
  sun_next_rising := none
  sun_next_setting := none

/-- The engine state right after `__init__`. -/
def s_init : EngineState where
  manual_until := none
  manual_active := false
  manual_scope_all := false
  target := none
  reason := none
  next_open := none
  next_close := none

/-! ### Basic lemmas about the embedded operations -/

theorem refresh_manual_until (cfg : Config) (env : Env) (s : EngineState) :
    (refresh_next_events cfg env s).manual_until = s.manual_until := rfl

theorem refresh_manual_active (cfg : Config) (env : Env) (s : EngineState) :
    (refresh_next_events cfg env s).manual_active = s.manual_active := rfl

theorem refresh_manual_scope_all (cfg : Config) (env : Env) (s : EngineState) :
    (refresh_next_events cfg env s).manual_scope_all = s.manual_scope_all := rfl

theorem refresh_target (cfg : Config) (env : Env) (s : EngineState) :
    (refresh_next_events cfg env s).target = s.target := rfl

theorem refresh_reason (cfg : Config) (env : Env) (s : EngineState) :
    (refresh_next_events cfg env s).reason = s.reason := rfl

/-- `_expire_manual_override` is the identity when the override deadline, if
any, is still in the future. -/
theorem expire_noop (now : Int) (s : EngineState)
    (h : ∀ t, s.manual_until = some t → now < t) :
    expire_manual_override now s = s := by
  unfold expire_manual_override
  split
  · next t heq =>
    have ht := h t heq
    rw [if_neg (by omega)]
  · rfl

/-- `_expire_manual_override` never activates an override. -/
theorem expire_manual_active_false (now : Int) (s : EngineState)
    (h : s.manual_active = false) :
    (expire_manual_override now s).manual_active = false := by
  unfold expire_manual_override
  split
  · split
    · rfl
    · exact h
  · exact h

/-- `_expire_manual_override` does not touch the stored target. -/
theorem expire_target (now : Int) (s : EngineState) :
    (expire_manual_override now s).target = s.target := by
  unfold expire_manual_override
  split
  · split <;> rfl
  · rfl

/-- `_set_position` with a concrete position always leaves the requested
reason stored: either it issues and assigns it, or it skipped because the
stored reason already was the requested one. -/
theorem set_position_reason (cfg : Config) (env : Env) (s : EngineState)
    (p : Int) (r : String) :
    ((set_position cfg env s (some p) r).1).reason = some r := by
  simp only [set_position]
  split
  · next hskip =>
    unfold position_request_skipped at hskip
    rcases hc : env.current_position with _ | c
    · rw [hc] at hskip
      exact absurd hskip (by simp)
    · rw [hc] at hskip
      simp only [decide_eq_true_eq] at hskip
      exact hskip.2
  · rw [refresh_reason]

/-- `_set_position` with a concrete position either skips or issues exactly
the requested command. -/
theorem set_position_cases (cfg : Config) (env : Env) (s : EngineState)
    (p : Int) (r : String) :
    (set_position cfg env s (some p) r).2 = none
      ∨ (set_position cfg env s (some p) r).2 = some { position := p, reason := r } := by
  simp only [set_position]
  split
  · exact Or.inl rfl
  · exact Or.inr rfl

/-- Any command issued by `_set_position` carries the requested position and
reason and was not skippable: the skip guard evaluated to false for it. -/
theorem set_position_cmd (cfg : Config) (env : Env) (s : EngineState)
    (pos : Option Int) (r : String) (cmd : Command)
    (h : (set_position cfg env s pos r).2 = some cmd) :
    pos = some cmd.position ∧ cmd.reason = r
      ∧ position_request_skipped cfg env s cmd.position cmd.reason = false := by
  rcases pos with _ | p
  · simp [set_position] at h
  · simp only [set_position] at h
    split at h
    · simp at h
    · next hskip =>
      have hcmd : cmd = { position := p, reason := r } := by
        have := h.symm
        simpa using this
      subst hcmd
      exact ⟨rfl, rfl, by simpa using hskip⟩

/-! ### C6: recalibration restores the override state -/

/-- C6: for every starting override/reason state and every outcome of the
calibration body (all steps completed, or any awaited command/wait raising,
the wait timeout being a normal return), `recalibrate` restores
`manual_until`, `manual_active`, `manual_scope_all` and `reason` to their
exact pre-call values. -/
theorem c6_recalibrate_restores (cfg : Config) (env : Env) (full_open : Option Int)
    (outcome : Option (Fin 4)) (s : EngineState) :
    ((recalibrate cfg env full_open outcome s).1).manual_until = s.manual_until
      ∧ ((recalibrate cfg env full_open outcome s).1).manual_active = s.manual_active
      ∧ ((recalibrate cfg env full_open outcome s).1).manual_scope_all = s.manual_scope_all
      ∧ ((recalibrate cfg env full_open outcome s).1).reason = s.reason := by
  exact ⟨rfl, rfl, rfl, rfl⟩

/-! ### C10: update_config clears the override, keeps target and reason -/

/-- C10: `update_config` replaces the configuration and clears exactly the
override fields (`manual_until` to none, `manual_active` and
`manual_scope_all` to false) while leaving the stored target and reason
unchanged — so a reason of "manual_override" or "manual_shading" survives a
configuration update, whereas `clear_manual_override` resets such a reason
to none. -/
theorem c10_update_config_frame :
    (∀ (new_config : Config) (env : Env) (s : EngineState),
      (update_config new_config env s).1 = new_config
        ∧ ((update_config new_config env s).2).manual_until = none
        ∧ ((update_config new_config env s).2).manual_active = false
        ∧ ((update_config new_config env s).2).manual_scope_all = false
        ∧ ((update_config new_config env s).2).target = s.target
        ∧ ((update_config new_config env s).2).reason = s.reason)
    ∧ (∀ (cfg : Config) (env : Env) (s : EngineState),
      s.reason = some R_MANUAL_OVERRIDE ∨ s.reason = some R_MANUAL_SHADING →
      (clear_manual_override cfg env s).reason = none) := by
  constructor
  · intro new_config env s
    exact ⟨rfl, rfl, rfl, rfl, rfl, rfl⟩
  · intro cfg env s h
    unfold clear_manual_override
    rw [refresh_reason]
    dsimp only
    rw [if_pos h]

/-! ### C8: schedule wraparound -/

/-- C8: `_next_time_for_point` always returns an instant no earlier than
now, rolling the naive date+time combination to the next day exactly when it
lies at or before now; and the open/close window test treats a close time
earlier in the clock than the open time as an overnight window spanning
midnight: it holds exactly when the minute of the day is at or after the
open time or strictly before the close time. -/
theorem c8_schedule_wraparound :
    (∀ (t nowDay nowMin r : Int), 0 ≤ t → t < 1440 → nowMin < 1440 →
      next_time_for_point (some t) nowDay nowMin = some r →
      nowDay * 1440 + nowMin ≤ r
        ∧ (nowDay * 1440 + t ≤ nowDay * 1440 + nowMin → r = nowDay * 1440 + t + 1440)
        ∧ (nowDay * 1440 + nowMin < nowDay * 1440 + t → r = nowDay * 1440 + t))
    ∧ (∀ (cfg : Config) (env : Env) (open_time close_time : Int),
      time_setting cfg env.workday true = some open_time →
      time_setting cfg env.workday false = some close_time →
      0 ≤ open_time → open_time < 1440 → 0 ≤ close_time → close_time < 1440 →
      0 ≤ env.nowMin → env.nowMin < 1440 →
      close_time < open_time →
      (within_open_close_window cfg env = true
        ↔ (open_time ≤ env.nowMin ∨ env.nowMin < close_time))) := by
  constructor
  · intro t nowDay nowMin r h0 h1 h2 hr
    simp only [next_time_for_point] at hr
    split at hr <;> (injection hr with hr) <;> omega
  · intro cfg env open_time close_time hot hct h0 h1 h2 h3 h4 h5 hlt
    unfold within_open_close_window
    rw [hot, hct]
    simp only [window_check, Bool.or_eq_true, decide_eq_true_eq, Env.now]
    split_ifs <;> omega

/-! ### C9: coordinator operations on an unregistered cover -/

/-- C9 counterexample: `ControllerManager.state_snapshot` for a cover with
no registered controller does not return none — it returns the literal
default idle tuple. -/
theorem c9_counterexample :
    manager_state_snapshot
      { config := cfg_base, controllers := [] } env_base "cover.unknown" ≠ none
      ∧ manager_state_snapshot
        { config := cfg_base, controllers := [] } env_base "cover.unknown"
        = some default_snapshot := by
  constructor
  · intro h
    simp [manager_state_snapshot, ControllerManager.find] at h
  · rfl

/-- C9 (amended): every coordinator control operation keyed by a cover with
no registered controller returns false and leaves the coordinator (hence
every engine state) unchanged; `state_snapshot` for such a cover returns the
default idle tuple rather than none. -/
theorem c9_missing_cover_ops (m : ControllerManager) (env : Env) (cover : String)
    (minutes : Int) (minutes2 : Option Int) (full_open : Option Int)
    (outcome : Option (Fin 4))
    (h : m.find cover = none) :
    manager_set_manual_override m env cover minutes = (m, false)
      ∧ manager_activate_shading m env cover minutes2 = (m, false)
      ∧ manager_clear_manual_override m env cover = (m, false)
      ∧ manager_recalibrate_cover m env cover full_open outcome = (m, false)
      ∧ manager_state_snapshot m env cover = some default_snapshot := by
  refine ⟨?_, ?_, ?_, ?_, ?_⟩ <;>
    simp [manager_set_manual_override, manager_activate_shading,
      manager_clear_manual_override, manager_recalibrate_cover,
      manager_state_snapshot, h]

/-- C9 witness. -/
theorem c9_missing_cover_ops_witness :
    manager_set_manual_override
        { config := cfg_base, controllers := [] } env_base "cover.a" 15
      = ({ config := cfg_base, controllers := [] }, false) := by
  exact (c9_missing_cover_ops { config := cfg_base, controllers := [] } env_base
    "cover.a" 15 none none none (by rfl)).1

/-! ### C5: scope-all override skips the cascade -/

/-- C5: `set_manual_override` activates a scope-all override with reason
"manual_override" lasting the given (or, for a falsy zero, the configured)
number of minutes; and while a scope-all override is active and not yet
expired, `evaluate` issues no set-position command and leaves target and
reason unchanged — it only refreshes the scheduled times (and publishes). -/
theorem c5_scope_all_skips_cascade (cfg : Config) (env : Env) (minutes : Int)
    (s s2 : EngineState)
    (hactive : s2.manual_active = true) (hscope : s2.manual_scope_all = true)
    (hnotexp : ∀ t, s2.manual_until = some t → env.now < t) :
    (set_manual_override cfg env minutes s).manual_active = true
      ∧ (set_manual_override cfg env minutes s).manual_scope_all = true
      ∧ (set_manual_override cfg env minutes s).reason = some R_MANUAL_OVERRIDE
      ∧ (set_manual_override cfg env minutes s).manual_until
        = some (env.now + (if minutes = 0
          then cfg.manual_override_minutes.getD DEFAULT_MANUAL_OVERRIDE_MINUTES
          else minutes))
      ∧ evaluate cfg env s2 = (refresh_next_events cfg env s2, none)
      ∧ ((evaluate cfg env s2).1).target = s2.target
      ∧ ((evaluate cfg env s2).1).reason = s2.reason := by
  have heval : evaluate cfg env s2 = (refresh_next_events cfg env s2, none) := by
    unfold evaluate
    rw [expire_noop env.now s2 hnotexp]
    unfold evaluate_cascade
    rw [hactive, hscope]
    rfl
  refine ⟨?_, ?_, ?_, ?_, heval, ?_, ?_⟩
  · rw [set_manual_override, activate_manual_override, refresh_manual_active]
  · rw [set_manual_override, activate_manual_override, refresh_manual_scope_all]
    simp
  · rw [set_manual_override, activate_manual_override, refresh_reason]
  · rw [set_manual_override, activate_manual_override, refresh_manual_until]
    rfl
  · rw [heval, refresh_target]
  · rw [heval, refresh_reason]

/-! ### The set-position guard lifted through the cascade -/

/-- Any command the auto-up/auto-down tail issues passed the skip guard. -/
theorem after_sun_guard (cfg : Config) (env : Env) (s : EngineState)
    (ud dd : Bool) (cmd : Command)
    (h : (evaluate_after_sun cfg env s ud dd).2 = some cmd) :
    position_request_skipped cfg env s cmd.position cmd.reason = false := by
  unfold evaluate_after_sun at h
  split at h
  · split at h
    · exact (set_position_cmd cfg env s _ _ cmd h).2.2
    · exact absurd h (by simp)
  · split at h
    · split at h
      · exact (set_position_cmd cfg env s _ _ cmd h).2.2
      · exact absurd h (by simp)
    · exact absurd h (by simp)

/-- Any command the sun-close rule or its continuation issues passed the
skip guard. -/
theorem sun_close_guard (cfg : Config) (env : Env) (s : EngineState)
    (ud dd : Bool) (cmd : Command)
    (h : (evaluate_sun_close cfg env s ud dd).2 = some cmd) :
    position_request_skipped cfg env s cmd.position cmd.reason = false := by
  unfold evaluate_sun_close at h
  split at h
  · exact (set_position_cmd cfg env s _ _ cmd h).2.2
  · exact after_sun_guard cfg env s ud dd cmd h

/-- Any command the shading block or its continuation issues passed the
skip guard. -/
theorem shading_guard (cfg : Config) (env : Env) (s : EngineState)
    (ud dd : Bool) (cmd : Command)
    (h : (evaluate_shading cfg env s ud dd).2 = some cmd) :
    position_request_skipped cfg env s cmd.position cmd.reason = false := by
  unfold evaluate_shading at h
  split at h
  · split at h
    · split at h
      · exact (set_position_cmd cfg env s _ _ cmd h).2.2
      · split at h
        · exact (set_position_cmd cfg env s _ _ cmd h).2.2
        · exact sun_close_guard cfg env s ud dd cmd h
    · split at h
      · exact (set_position_cmd cfg env s _ _ cmd h).2.2
      · exact sun_close_guard cfg env s ud dd cmd h
  · exact sun_close_guard cfg env s ud dd cmd h

/-- Any command the whole cascade issues passed the skip guard of
`_set_position` for the state the cascade ran on. -/
theorem cascade_guard (cfg : Config) (env : Env) (s : EngineState) (cmd : Command)
    (h : (evaluate_cascade cfg env s).2 = some cmd) :
    position_request_skipped cfg env s cmd.position cmd.reason = false := by
  unfold evaluate_cascade at h
  split at h
  · exact absurd h (by simp)
  · split at h
    · exact (set_position_cmd cfg env s _ _ cmd h).2.2
    · split at h
      · split at h
        · exact (set_position_cmd cfg env s _ _ cmd h).2.2
        · exact absurd h (by simp)
      · split at h
        · exact (set_position_cmd cfg env s _ _ cmd h).2.2
        · exact shading_guard cfg env s _ _ cmd h

/-- Any command `evaluate` issues passed the skip guard for the post-expiry
state. -/
theorem evaluate_guard (cfg : Config) (env : Env) (s : EngineState) (cmd : Command)
    (h : (evaluate cfg env s).2 = some cmd) :
    position_request_skipped cfg env (expire_manual_override env.now s)
      cmd.position cmd.reason = false := by
  unfold evaluate at h
  exact cascade_guard cfg env (expire_manual_override env.now s) cmd h

/-! ### C2: position-command idempotence -/

/-- C2 counterexample: with a fixed environment (the measured position does
not move between ticks) and unchanged inputs, two consecutive `evaluate`
calls each issue a set-position command, so two evaluations in a row issue
two commands, not at most one. -/
theorem c2_counterexample :
    ((evaluate cfg_base env_base s_init).2).isSome = true
      ∧ ((evaluate cfg_base env_base ((evaluate cfg_base env_base s_init).1)).2).isSome
        = true := by
  decide

/-- C2 (amended): a set-position command is only issued when the skip guard
fails — the measured position is unavailable, or outside tolerance of the
requested position, or the stored reason differs from the requested reason;
in particular, the second of two consecutive evaluations with unchanged
inputs issues a command only under that guard, and is therefore a no-op
whenever the state left by the first call already matches the second call's
request in reason and tolerance.  (Each evaluation issues at most one
command by construction: every source path returns after at most one
`_set_position` call.) -/
theorem c2_second_call_guard (cfg : Config) (env : Env) (s0 : EngineState) (cmd : Command)
    (h : (evaluate cfg env ((evaluate cfg env s0).1)).2 = some cmd) :
    position_request_skipped cfg env
      (expire_manual_override env.now ((evaluate cfg env s0).1))
      cmd.position cmd.reason = false :=
  evaluate_guard cfg env ((evaluate cfg env s0).1) cmd h

/-- C2 witness. -/
theorem c2_second_call_guard_witness :
    position_request_skipped cfg_base env_base
      (expire_manual_override env_base.now ((evaluate cfg_base env_base s_init).1))
      (100 : Int) R_SCHEDULED_OPEN = false :=
  c2_second_call_guard cfg_base env_base s_init
    { position := 100, reason := R_SCHEDULED_OPEN } (by decide)

/-! ### C1: ventilation has priority over scheduled open -/

/-- C1: when the ventilation rule's conditions (auto-ventilate enabled and a
window sensor open) and the scheduled-open rule's conditions hold in the
same evaluation — with no resident asleep and no manual override active, so
the cascade reaches the ventilation rule — `evaluate` decides the ventilate
position with reason "ventilation": the stored reason becomes
"ventilation", the only command it can issue is the ventilate-position one,
and it never issues the scheduled-open command. -/
theorem c1_ventilation_priority (cfg : Config) (env : Env) (s : EngineState)
    (hvent : cfg.auto_ventilate_enabled = true) (hwin : env.window_open = true)
    (hres : env.resident_sleeping = false) (hact : s.manual_active = false)
    (hup : cfg.auto_up_enabled = true)
    (hdue : event_due s.next_open env.now = true
      ∨ within_open_close_window cfg env = true)
    (hbo : brightness_allows_open cfg env.brightness = true) :
    ((evaluate cfg env s).1).reason = some R_VENTILATION
      ∧ ((evaluate cfg env s).2 = none
        ∨ (evaluate cfg env s).2 = some
          { position := position_value cfg.ventilate_position DEFAULT_VENTILATE_POSITION,
            reason := R_VENTILATION })
      ∧ (evaluate cfg env s).2 ≠ some
        { position := position_value cfg.open_position DEFAULT_OPEN_POSITION,
          reason := R_SCHEDULED_OPEN } := by
  have hact1 : (expire_manual_override env.now s).manual_active = false :=
    expire_manual_active_false env.now s hact
  have hblock : manual_blocks_action cfg (expire_manual_override env.now s)
      R_VENTILATION = false := by
    unfold manual_blocks_action
    rw [hact1]
    rfl
  have key : evaluate cfg env s
      = set_position cfg env (expire_manual_override env.now s)
        (some (position_value cfg.ventilate_position DEFAULT_VENTILATE_POSITION))
        R_VENTILATION := by
    unfold evaluate evaluate_cascade
    rw [hact1, hres, hvent, hwin, hblock]
    rfl
  rw [key]
  refine ⟨set_position_reason cfg env _ _ _, set_position_cases cfg env _ _ _, ?_⟩
  intro hcmd
  have hr := (set_position_cmd cfg env _ _ _ _ hcmd).2.1
  simp [R_VENTILATION, R_SCHEDULED_OPEN] at hr

/-- C1 witness. -/
theorem c1_ventilation_priority_witness :
    ((evaluate { cfg_base with auto_ventilate_enabled := true }
        { env_base with window_open := true } s_init).1).reason = some R_VENTILATION
      ∧ ((evaluate { cfg_base with auto_ventilate_enabled := true }
          { env_base with window_open := true } s_init).2 = none
        ∨ (evaluate { cfg_base with auto_ventilate_enabled := true }
            { env_base with window_open := true } s_init).2 = some
          { position := position_value
              ({ cfg_base with auto_ventilate_enabled := true } : Config).ventilate_position
              DEFAULT_VENTILATE_POSITION,
            reason := R_VENTILATION })
      ∧ (evaluate { cfg_base with auto_ventilate_enabled := true }
          { env_base with window_open := true } s_init).2 ≠ some
        { position := position_value
            ({ cfg_base with auto_ventilate_enabled := true } : Config).open_position
            DEFAULT_OPEN_POSITION,
          reason := R_SCHEDULED_OPEN } :=
  c1_ventilation_priority { cfg_base with auto_ventilate_enabled := true }
    { env_base with window_open := true } s_init rfl rfl rfl rfl rfl
    (Or.inr (by decide)) (by decide)

/-! ### Blocked actions under an active override -/

/-- An active override with the block-open flag set blocks the open
action. -/
theorem manual_blocks_open (cfg : Config) (s : EngineState)
    (hact : s.manual_active = true) (hflag : cfg.manual_override_block_open = true) :
    manual_blocks_action cfg s A_OPEN = true := by
  unfold manual_blocks_action
  rw [hact]
  simp [hflag]

/-- An active override with the block-close flag set blocks the close
action. -/
theorem manual_blocks_close (cfg : Config) (s : EngineState)
    (hact : s.manual_active = true) (hflag : cfg.manual_override_block_close = true) :
    manual_blocks_action cfg s A_CLOSE = true := by
  unfold manual_blocks_action
  rw [hact]
  simp [hflag, A_CLOSE, A_OPEN]

/-- An active override with the block-ventilate flag set blocks the
ventilation action. -/
theorem manual_blocks_ventilation (cfg : Config) (s : EngineState)
    (hact : s.manual_active = true)
    (hflag : cfg.manual_override_block_ventilate = true) :
    manual_blocks_action cfg s R_VENTILATION = true := by
  unfold manual_blocks_action
  rw [hact]
  simp [hflag, R_VENTILATION, A_CLOSE, A_OPEN]

/-- An active override with the block-shading flag set blocks the shading
action. -/
theorem manual_blocks_shading (cfg : Config) (s : EngineState)
    (hact : s.manual_active = true)
    (hflag : cfg.manual_override_block_shading = true) :
    manual_blocks_action cfg s R_SHADING = true := by
  unfold manual_blocks_action
  rw [hact]
  simp [hflag, R_SHADING, R_VENTILATION, A_CLOSE, A_OPEN]

/-- With open and close blocked, the auto-up/auto-down tail issues no
command. -/
theorem after_sun_blocked (cfg : Config) (env : Env) (s : EngineState)
    (ud dd : Bool) (hact : s.manual_active = true)
    (ho : cfg.manual_override_block_open = true)
    (hc : cfg.manual_override_block_close = true) :
    (evaluate_after_sun cfg env s ud dd).2 = none := by
  have h1 := manual_blocks_open cfg s hact ho
  have h2 := manual_blocks_close cfg s hact hc
  simp only [evaluate_after_sun, h1, h2, Bool.not_true, Bool.and_false,
    Bool.false_eq_true, if_false]
  split
  · rfl
  · split <;> rfl

/-- With open and close blocked, the sun-close rule and its continuation
issue no command. -/
theorem sun_close_blocked (cfg : Config) (env : Env) (s : EngineState)
    (ud dd : Bool) (hact : s.manual_active = true)
    (ho : cfg.manual_override_block_open = true)
    (hc : cfg.manual_override_block_close = true) :
    (evaluate_sun_close cfg env s ud dd).2 = none := by
  have h2 := manual_blocks_close cfg s hact hc
  have hafter := after_sun_blocked cfg env s ud dd hact ho hc
  simp [evaluate_sun_close, h2, hafter]

/-- With shading, open and close blocked, the shading block and its
continuation issue no command. -/
theorem shading_blocked (cfg : Config) (env : Env) (s : EngineState)
    (ud dd : Bool) (hact : s.manual_active = true)
    (ho : cfg.manual_override_block_open = true)
    (hc : cfg.manual_override_block_close = true)
    (hsh : cfg.manual_override_block_shading = true) :
    (evaluate_shading cfg env s ud dd).2 = none := by
  have h4 := manual_blocks_shading cfg s hact hsh
  have hsc := sun_close_blocked cfg env s ud dd hact ho hc
  simp [evaluate_shading, h4, hsc]

/-- With all four block flags set and an active (non-scope-all or scope-all)
override, the cascade can only command the resident-asleep close or the
cold-protection close — every other rule is blocked. -/
theorem cascade_blocked (cfg : Config) (env : Env) (s : EngineState)
    (hact : s.manual_active = true)
    (ho : cfg.manual_override_block_open = true)
    (hc : cfg.manual_override_block_close = true)
    (hv : cfg.manual_override_block_ventilate = true)
    (hsh : cfg.manual_override_block_shading = true) :
    (evaluate_cascade cfg env s).2 = none
      ∨ (evaluate_cascade cfg env s).2 = some
        { position := position_value cfg.close_position DEFAULT_CLOSE_POSITION,
          reason := R_RESIDENT_ASLEEP }
      ∨ (evaluate_cascade cfg env s).2 = some
        { position := position_value cfg.close_position DEFAULT_CLOSE_POSITION,
          reason := R_COLD_PROTECTION } := by
  have hvent := manual_blocks_ventilation cfg s hact hv
  have hshade := shading_blocked cfg env s
    (event_due s.next_open env.now) (event_due s.next_close env.now) hact ho hc hsh
  unfold evaluate_cascade
  split
  · exact Or.inl rfl
  · split
    · rcases set_position_cases cfg env s
        (position_value cfg.close_position DEFAULT_CLOSE_POSITION) R_RESIDENT_ASLEEP
        with h | h
      · exact Or.inl h
      · exact Or.inr (Or.inl h)
    · split
      · rw [hvent]
        exact Or.inl rfl
      · split
        · rcases set_position_cases cfg env s
            (position_value cfg.close_position DEFAULT_CLOSE_POSITION) R_COLD_PROTECTION
            with h | h
          · exact Or.inl h
          · exact Or.inr (Or.inr h)
        · exact Or.inl hshade

/-! ### C4: manual-movement detection -/

/-- A configuration for observing detection with only some flags set:
ventilation is automated, and among the block flags only block-open is
enabled. -/
def cfg_det : Config :=
  { cfg_base with
    auto_ventilate_enabled := true, manual_override_block_ventilate := false,
    manual_override_block_close := false, manual_override_block_shading := false }

/-- A cover-state-change environment: measured position 40. -/
def env_det : Env := { env_base with current_position := some 40 }

/-- One minute later, with a window sensor open. -/
def env_det2 : Env :=
  { env_base with current_position := some 40, window_open := true, nowMin := 601 }

/-- A state whose last commanded target was 100. -/
def s_det : EngineState :=
  { s_init with target := some 100, reason := some R_SCHEDULED_OPEN }

/-- C4 counterexample: a cover-state-change at measured position 40 against
target 100 (tolerance 3), with no override active and the block-open flag
enabled, activates an override — but `manual_scope_all` stays false (the
source passes no `scope_all=True` here), and the very next evaluation still
performs an automated action (it commands the ventilate position), so the
override is not scope-all and automated actions are not all suppressed. -/
theorem c4_counterexample :
    (handle_state_event cfg_det env_det true s_det).manual_active = true
      ∧ (handle_state_event cfg_det env_det true s_det).manual_scope_all = false
      ∧ (evaluate cfg_det env_det2 (handle_state_event cfg_det env_det true s_det)).2
        = some { position := 50, reason := R_VENTILATION } := by
  decide

/-- C4 (amended): on a cover-state-change event with the measured position
differing from the last commanded target by more than tolerance, no
override active after expiry, and the block flags enabled, the engine
activates an override: `manual_active` becomes true, the reason becomes
"manual_override", `manual_until` follows the configured reset policy —
but `manual_scope_all` is left unchanged (not forced true).  Subsequent
evaluations while the override lasts skip the block-flagged actions: with
all four flags set they can only command the resident-asleep or
cold-protection close. -/
theorem c4_manual_detection (cfg : Config) (env env2 : Env) (s : EngineState)
    (current target : Int)
    (hcur : env.current_position = some current)
    (htar : (expire_manual_override env.now s).target = some target)
    (hdiff : position_value cfg.position_tolerance DEFAULT_TOLERANCE < |current - target|)
    (hact : (expire_manual_override env.now s).manual_active = false)
    (ho : cfg.manual_override_block_open = true)
    (hc : cfg.manual_override_block_close = true)
    (hv : cfg.manual_override_block_ventilate = true)
    (hsh : cfg.manual_override_block_shading = true)
    (hexp : ∀ t, (handle_state_event cfg env true s).manual_until = some t
      → env2.now < t) :
    (handle_state_event cfg env true s).manual_active = true
      ∧ (handle_state_event cfg env true s).reason = some R_MANUAL_OVERRIDE
      ∧ (handle_state_event cfg env true s).manual_scope_all
        = (expire_manual_override env.now s).manual_scope_all
      ∧ (handle_state_event cfg env true s).manual_until = manual_reset_at cfg env none
      ∧ ((evaluate cfg env2 (handle_state_event cfg env true s)).2 = none
        ∨ (evaluate cfg env2 (handle_state_event cfg env true s)).2 = some
          { position := position_value cfg.close_position DEFAULT_CLOSE_POSITION,
            reason := R_RESIDENT_ASLEEP }
        ∨ (evaluate cfg env2 (handle_state_event cfg env true s)).2 = some
          { position := position_value cfg.close_position DEFAULT_CLOSE_POSITION,
            reason := R_COLD_PROTECTION }) := by
  have hdet : manual_detection_enabled cfg (expire_manual_override env.now s) = true := by
    unfold manual_detection_enabled
    rw [hact, ho]
    rfl
  have key : handle_state_event cfg env true s
      = activate_manual_override cfg env none false (some R_MANUAL_OVERRIDE)
        (expire_manual_override env.now s) := by
    simp only [handle_state_event, hcur, htar, hdet, decide_eq_true hdiff,
      Bool.and_self, if_true]
  have h1 : (handle_state_event cfg env true s).manual_active = true := by
    rw [key]; rfl
  have h3 : (handle_state_event cfg env true s).manual_scope_all
      = (expire_manual_override env.now s).manual_scope_all := by
    rw [key]
    show ((expire_manual_override env.now s).manual_scope_all || false)
      = (expire_manual_override env.now s).manual_scope_all
    exact Bool.or_false _
  have hexp' : expire_manual_override env2.now (handle_state_event cfg env true s)
      = handle_state_event cfg env true s :=
    expire_noop env2.now _ hexp
  refine ⟨h1, by rw [key]; rfl, h3, by rw [key]; rfl, ?_⟩
  have hblocked := cascade_blocked cfg env2 (handle_state_event cfg env true s)
    h1 ho hc hv hsh
  unfold evaluate
  rw [hexp']
  exact hblocked

/-- One minute after the detection event, no window open. -/
def env_det2b : Env := { env_base with nowMin := 601 }

/-- C4 witness. -/
theorem c4_manual_detection_witness :
    (handle_state_event cfg_base env_det true s_det).manual_active = true
      ∧ (handle_state_event cfg_base env_det true s_det).reason = some R_MANUAL_OVERRIDE
      ∧ (handle_state_event cfg_base env_det true s_det).manual_scope_all
        = (expire_manual_override env_det.now s_det).manual_scope_all
      ∧ (handle_state_event cfg_base env_det true s_det).manual_until
        = manual_reset_at cfg_base env_det none
      ∧ ((evaluate cfg_base env_det2b (handle_state_event cfg_base env_det true s_det)).2
          = none
        ∨ (evaluate cfg_base env_det2b (handle_state_event cfg_base env_det true s_det)).2
          = some
            { position := position_value cfg_base.close_position DEFAULT_CLOSE_POSITION,
              reason := R_RESIDENT_ASLEEP }
        ∨ (evaluate cfg_base env_det2b (handle_state_event cfg_base env_det true s_det)).2
          = some
            { position := position_value cfg_base.close_position DEFAULT_CLOSE_POSITION,
              reason := R_COLD_PROTECTION }) :=
  c4_manual_detection cfg_base env_det env_det2b s_det 40 100 rfl rfl (by decide)
    rfl rfl rfl rfl rfl
    (fun t ht => by
      have h2 := Option.some.inj (show (some (690 : Int)) = some t from ht)
      have h3 : env_det2b.now = 601 := rfl
      omega)

/-! ### C3: shading hysteresis -/

/-- Shading enabled with start threshold 50 and end threshold 30; a warm
forecast so that the temperature condition for shading holds. -/
def cfg_shade : Config :=
  { cfg_base with
    auto_shading_enabled := true, shading_brightness_start := 50,
    shading_brightness_end := 30, temperature_forecast_threshold := some 1 }

/-- Sun inside the shading azimuth/elevation window, brightness 40 —
strictly between the end threshold (30) and the start threshold (50). -/
def env_shade : Env :=
  { env_base with
    brightness := some 40, sun_azimuth := some 180, sun_elevation := some 40,
    current_position := some 30 }

/-- Shading currently active: the stored reason is "shading". -/
def s_shade : EngineState :=
  { s_init with reason := some R_SHADING, target := some 30 }

/-- C3: with shading active and brightness 40 strictly between the end
threshold (30) and the start threshold (50) — sun window and temperature
conditions satisfied — `_shading_conditions` is already false, because the
`brightness < start` guard precedes the hysteresis clause, so the next
evaluation deactivates shading (it commands the shading-end close).  The
claimed hysteresis band does not exist in the code. -/
theorem c3_shading_hysteresis_code_bug :
    cfg_shade.shading_brightness_end < 40
      ∧ (40 : Int) < cfg_shade.shading_brightness_start
      ∧ env_shade.brightness = some 40
      ∧ temperature_allows_shading cfg_shade env_shade = true
      ∧ decide (cfg_shade.shading_azimuth_start ≤ 180
          ∧ (180 : Int) ≤ cfg_shade.shading_azimuth_end
          ∧ cfg_shade.shading_elevation_min ≤ 40
          ∧ (40 : Int) ≤ cfg_shade.shading_elevation_max) = true
      ∧ shading_conditions cfg_shade (some R_SHADING) env_shade = false
      ∧ ((evaluate cfg_shade env_shade s_shade).1).reason = some R_SHADING_END_CLOSE := by
  decide

/-! ### C7: activate_shading -/

/-- Shading position configured at 30. -/
def cfg_manshade : Config := { cfg_base with shading_position := some 30 }

/-- Measured position already at the shading position. -/
def env_manshade : Env := { env_base with current_position := some 30 }

/-- Prior reason already "manual_shading". -/
def s_manshade : EngineState := { s_init with reason := some R_MANUAL_SHADING }

/-- C7 counterexample: `activate_shading` with the cover already within
tolerance of the shading position and the stored reason already
"manual_shading" issues no set-position command (the `_set_position` skip
guard fires), and it does not set `manual_active` — so the command is not
unconditional and the manual-override state does not become active. -/
theorem c7_counterexample :
    (activate_shading cfg_manshade env_manshade none s_manshade).2 = none
      ∧ ((activate_shading cfg_manshade env_manshade none s_manshade).1).manual_active
        = false := by
  decide

/-- C7 (amended): `activate_shading` sets `manual_until` to now plus the
given (or, for a falsy zero/none, the configured) minutes while leaving
`manual_active` and `manual_scope_all` unchanged, and requests the
configured shading position with reason "manual_shading"; the command is
issued — storing that target and reason — unless the measured position is
already within tolerance of the shading position with stored reason already
"manual_shading" (or no shading position is configured). -/
theorem c7_activate_shading (cfg : Config) (env : Env) (minutes : Option Int)
    (s : EngineState) (p : Int)
    (hp : cfg.shading_position = some p)
    (hskip : position_request_skipped cfg env s p R_MANUAL_SHADING = false) :
    ((activate_shading cfg env minutes s).1).manual_active = s.manual_active
      ∧ ((activate_shading cfg env minutes s).1).manual_scope_all = s.manual_scope_all
      ∧ ((activate_shading cfg env minutes s).1).manual_until
        = some (env.now + (match minutes with
          | none => cfg.manual_override_minutes.getD DEFAULT_MANUAL_OVERRIDE_MINUTES
          | some m =>
            if m = 0 then cfg.manual_override_minutes.getD DEFAULT_MANUAL_OVERRIDE_MINUTES
            else m))
      ∧ (activate_shading cfg env minutes s).2
        = some { position := p, reason := R_MANUAL_SHADING }
      ∧ ((activate_shading cfg env minutes s).1).reason = some R_MANUAL_SHADING
      ∧ ((activate_shading cfg env minutes s).1).target = some p := by
  unfold activate_shading
  rw [hp]
  simp only [set_position]
  rw [if_neg (by rw [show position_request_skipped cfg env
    { s with manual_until := some (env.now + (match minutes with
      | none => cfg.manual_override_minutes.getD DEFAULT_MANUAL_OVERRIDE_MINUTES
      | some m =>
        if m = 0 then cfg.manual_override_minutes.getD DEFAULT_MANUAL_OVERRIDE_MINUTES
        else m)) } p R_MANUAL_SHADING = false from hskip]; simp)]
  exact ⟨rfl, rfl, rfl, rfl, rfl, rfl⟩

/-- C7 witness. -/
theorem c7_activate_shading_witness :
    ((activate_shading cfg_manshade env_base none s_init).1).manual_active
        = s_init.manual_active
      ∧ ((activate_shading cfg_manshade env_base none s_init).1).manual_scope_all
        = s_init.manual_scope_all
      ∧ ((activate_shading cfg_manshade env_base none s_init).1).manual_until
        = some (env_base.now + (match (none : Option Int) with
          | none => cfg_manshade.manual_override_minutes.getD
              DEFAULT_MANUAL_OVERRIDE_MINUTES
          | some m =>
            if m = 0 then cfg_manshade.manual_override_minutes.getD
              DEFAULT_MANUAL_OVERRIDE_MINUTES
            else m))
      ∧ (activate_shading cfg_manshade env_base none s_init).2
        = some { position := 30, reason := R_MANUAL_SHADING }
      ∧ ((activate_shading cfg_manshade env_base none s_init).1).reason
        = some R_MANUAL_SHADING
      ∧ ((activate_shading cfg_manshade env_base none s_init).1).target = some 30 :=
  c7_activate_shading cfg_manshade env_base none s_init 30 rfl (by decide)

/-! ### Remaining witnesses -/

/-- A state under a scope-all override until minute 2000. -/
def s_scope : EngineState :=
  { s_init with manual_active := true, manual_scope_all := true, manual_until := none }

/-- C5 witness. -/
theorem c5_scope_all_skips_cascade_witness :
    (set_manual_override cfg_base env_base 15 s_init).manual_active = true
      ∧ (set_manual_override cfg_base env_base 15 s_init).manual_scope_all = true
      ∧ (set_manual_override cfg_base env_base 15 s_init).reason = some R_MANUAL_OVERRIDE
      ∧ (set_manual_override cfg_base env_base 15 s_init).manual_until
        = some (env_base.now + (if (15 : Int) = 0
          then cfg_base.manual_override_minutes.getD DEFAULT_MANUAL_OVERRIDE_MINUTES
          else 15))
      ∧ evaluate cfg_base env_base s_scope
        = (refresh_next_events cfg_base env_base s_scope, none)
      ∧ ((evaluate cfg_base env_base s_scope).1).target = s_scope.target
      ∧ ((evaluate cfg_base env_base s_scope).1).reason = s_scope.reason :=
  c5_scope_all_skips_cascade cfg_base env_base 15 s_init s_scope rfl rfl
    (fun t ht => nomatch ht)

/-- An overnight schedule: open 22:00 (minute 1320), close 05:00 (minute
300). -/
def cfg_night : Config :=
  { cfg_base with time_up_workday := some 1320, time_down_workday := some 300 }

/-- C8 witness. -/
theorem c8_schedule_wraparound_witness :
    ((0 : Int) * 1440 + 600 ≤ 1800
      ∧ ((0 : Int) * 1440 + 360 ≤ 0 * 1440 + 600 → (1800 : Int) = 0 * 1440 + 360 + 1440))
      ∧ (within_open_close_window cfg_night env_base = true
        ↔ (1320 ≤ env_base.nowMin ∨ env_base.nowMin < 300)) := by
  constructor
  · have h := c8_schedule_wraparound.1 360 0 600 1800 (by decide) (by decide)
      (by decide) (by decide)
    exact ⟨h.1, h.2.1⟩
  · exact c8_schedule_wraparound.2 cfg_night env_base 1320 300 rfl rfl (by decide)
      (by decide) (by decide) (by decide) (by decide) (by decide) (by decide)

/-- C10 witness. -/
theorem c10_update_config_frame_witness :
    ((update_config cfg_base env_base
        { s_init with reason := some R_MANUAL_OVERRIDE }).2).reason
        = some R_MANUAL_OVERRIDE
      ∧ (clear_manual_override cfg_base env_base
        { s_init with reason := some R_MANUAL_OVERRIDE }).reason = none := by
  constructor
  · exact (c10_update_config_frame.1 cfg_base env_base
      { s_init with reason := some R_MANUAL_OVERRIDE }).2.2.2.2.2.trans rfl
  · exact c10_update_config_frame.2 cfg_base env_base
      { s_init with reason := some R_MANUAL_OVERRIDE } (Or.inl rfl)

end ShutterControl
